import Mathlib

/-!
Shallow embedding of `src/job_bot.py` ("find-my-dream-job"): the search
orchestration pipeline — intent planning, source adapters (Adzuna and the
site-restricted Google enterprise search), URL deduplication, per-listing
scoring, ranking/selection, and the submitted-form handler.

Python values that may be `None` are embedded as `Option`; a Python call
that may raise is embedded as an `Except Unit` value supplied as input
(`.error ()` standing for a raised exception).  Dict keys that the code
reads with `.get` are `Option` fields; a key read by direct indexing that
is absent corresponds to a raised `KeyError`.
-/

namespace JobBot

/-- One normalized job posting, mirroring the result dict built by the
adapters: keys `Title, Company, Location, Salary, Description, URL, Source`.
Each field is `Option String` because the Adzuna adapter stores `item.get(k)`
results, which are Python `None` when the key is absent. -/
structure Listing where
  Title : Option String
  Company : Option String
  Location : Option String
  Salary : Option String
  Description : Option String
  URL : Option String
  Source : Option String
deriving DecidableEq, Repr

/-- The planner's parsed JSON (`parse_user_intent` output when it parses):
each key may be absent from the model's JSON, hence `Option`. -/
structure Criteria where
  specific_keywords : Option (List String)
  broad_keywords : Option (List String)
  countries : Option (List String)
deriving DecidableEq, Repr

/-- The scorer's parsed JSON (`ai_analyze_job` output): keys `score`,
`salary_est`, `reason` may each be absent. -/
structure AnalysisJson where
  score : Option Int
  salary_est : Option String
  reason : Option String
deriving DecidableEq, Repr

/-- A listing after the scoring loop has attached `Match %`, `Salary Est.`
and `Reason` columns. -/
structure ScoredRow where
  listing : Listing
  matchScore : Int
  salaryEst : Option String
  reason : String
deriving DecidableEq, Repr

/-- `COUNTRY_MAP` from the source. -/
def COUNTRY_MAP : List (String × String) :=
  [("usa", "us"), ("united states", "us"), ("australia", "au"),
   ("uk", "gb"), ("germany", "de"), ("canada", "ca"), ("france", "fr"),
   ("netherlands", "nl")]

/-- `ENTERPRISE_DOMAINS` from the source. -/
def ENTERPRISE_DOMAINS : List String :=
  ["jpmorganchase.com/careers", "careers.bankofamerica.com", "wellsfargo.com/careers",
   "careers.citigroup.com", "goldmansachs.com/careers", "morganstanley.com/careers",
   "americanexpress.com/careers", "capitalone.com/careers",
   "careers.unitedhealthgroup.com", "jobs.cvshealth.com", "pfizer.com/careers",
   "careers.jnj.com", "merck.com/careers", "bms.com/careers",
   "careers.walmart.com", "careers.homedepot.com", "corporate.target.com/careers",
   "careers.pepsico.com", "coca-colacompany.com/careers", "pgcareers.com",
   "jobs.generalmotors.com", "careers.ford.com", "jobs.gecareers.com",
   "boeing.com/careers", "lockheedmartinjobs.com", "careers.exxonmobil.com",
   "careers.chevron.com", "shell.com/careers",
   "verizon.com/about/careers", "att.jobs", "t-mobile.com/careers"]

/-- Rendering of an optional value inside a Python f-string: `None` when
absent, the string itself otherwise (used for
`f"{item.get('location', \x7b\x7d).get('display_name')} (...)"`). -/
def pyStr : Option String → String
  | none => "None"
  | some s => s

/-- Python truthiness test `not GOOGLE_API_KEY` on an optional string
secret: true when the secret is unset or the empty string. -/
def pyFalsy : Option String → Bool
  | none => true
  | some s => s = ""

/-! ### Adzuna adapter (`search_adzuna`) -/

/-- The fields `search_adzuna` reads from one Adzuna `results` item with
`.get` (each may be absent).  `salary_min` is stored via
`item.get('salary_min', '0')`, default `"0"`; `description` defaults to
`""`; the rest default to `None`. -/
structure AdzunaFields where
  title : Option String
  company_display_name : Option String
  location_display_name : Option String
  salary_min : Option String
  description : Option String
  redirect_url : Option String
deriving DecidableEq, Repr

/-- One element of `data['results']`: `.error ()` is an item whose field
access raises (e.g. not a dict), aborting the loop. -/
abbrev AdzunaItem := Except Unit AdzunaFields

/-- The parsed Adzuna response body: `data.get('results', [])`, so the key
may be absent (default `[]`). -/
structure AdzunaData where
  results : Option (List AdzunaItem)

/-- The dict `search_adzuna` appends for one well-formed item. -/
def adzunaListing (country : String) (f : AdzunaFields) : Listing :=
  { Title := f.title
    Company := f.company_display_name
    Location := some (pyStr f.location_display_name ++ " (" ++ country.toUpper ++ ")")
    Salary := some (f.salary_min.getD "0")
    Description := some (f.description.getD "")
    URL := f.redirect_url
    Source := some "Adzuna" }

/-- The `for item in data.get('results', [])` loop: a raising item aborts
the loop (caught by the bare `except`), keeping the listings appended so
far. -/
def adzunaAccum (country : String) : List AdzunaItem → List Listing
  | [] => []
  | .error _ :: _ => []
  | .ok f :: rest => adzunaListing country f :: adzunaAccum country rest

/-- `search_adzuna(term, country)`: the transport call
`requests.get(...)` / `resp.json()` is the `fetch` input; its failure is
caught by the bare `except`, so the accumulated `results` list (still
empty at that point) is returned. The adapter itself never raises. -/
def search_adzuna (fetch : Except Unit AdzunaData) (term country : String) :
    List Listing :=
  match fetch with
  | .error _ => []
  | .ok data => adzunaAccum country (data.results.getD [])

/-! ### Enterprise Google adapter (`search_enterprise_google`) -/

/-- The fields `search_enterprise_google` reads from one `items` element by
direct indexing (`item['title']` etc.): here all present.  An element with a
missing key raises `KeyError`, modelled by `GItem = .error`. -/
structure GFields where
  title : String
  displayLink : String
  snippet : String
  link : String
deriving DecidableEq, Repr

/-- One element of `res.get('items', [])`; `.error ()` raises on access. -/
abbrev GItem := Except Unit GFields

/-- One chunk's parsed response: `res.get('items', [])`, key may be absent. -/
structure GData where
  items : Option (List GItem)

/-- `item['title'].split("|")[0].split("-")[0].strip()`. -/
def stripTitle (s : String) : String :=
  ((((s.splitOn "|").headD "").splitOn "-").headD "").trim

/-- The dict appended for one well-formed Google item. -/
def googleListing (country_name : String) (g : GFields) : Listing :=
  { Title := some (stripTitle g.title)
    Company := some (((g.displayLink.replace "www." "").replace "careers." "").replace ".com" "")
    Location := some country_name
    Salary := some "Check Site"
    Description := some g.snippet
    URL := some g.link
    Source := some "Enterprise Direct" }

/-- The `for item in res.get('items', [])` loop inside one chunk's `try`:
a raising item aborts the rest of the chunk, keeping earlier appends. -/
def googleChunkItems (country_name : String) : List GItem → List Listing
  | [] => []
  | .error _ :: _ => []
  | .ok g :: rest => googleListing country_name g :: googleChunkItems country_name rest

/-- `[target_domains[i:i + 5] for i in range(0, len(target_domains), 5)]`,
computed by repeated take/drop; the fuel (initially the list length) bounds
the recursion and never runs out. -/
def chunkListGo : Nat → List String → List (List String)
  | 0, _ => []
  | _ + 1, [] => []
  | fuel + 1, l => l.take 5 :: chunkListGo fuel (l.drop 5)

/-- The chunking of the sampled domain list into blocks of 5. -/
def chunkList (l : List String) : List (List String) :=
  chunkListGo l.length l

/-- `query = f"({site_operator}) {term} {country_name}"` with
`site_operator = " OR ".join([f"site:{d}" for d in chunk])`. -/
def mkQuery (chunk : List String) (term country_name : String) : String :=
  "(" ++ String.intercalate " OR " (chunk.map (fun d => "site:" ++ d)) ++ ") "
    ++ term ++ " " ++ country_name

/-- One iteration of the `for chunk in domain_chunks` loop: the query is
issued; a raising `execute()` (or a raising item, handled inside
`googleChunkItems`) is caught by the per-chunk `except: pass`. The first
component records the queries issued, the second the listings appended. -/
def googleStep (exec : String → Except Unit GData) (term country_name : String)
    (acc : List String × List Listing) (chunk : List String) :
    List String × List Listing :=
  let query := mkQuery chunk term country_name
  match exec query with
  | .error _ => (acc.1 ++ [query], acc.2)
  | .ok res => (acc.1 ++ [query], acc.2 ++ googleChunkItems country_name (res.items.getD []))

/-- `search_enterprise_google(term, country_name)`.  Inputs: the
`GOOGLE_API_KEY` secret, the result of `build("customsearch", ...)` (which
is NOT inside any `try`, so its failure propagates), the random sample
`target_domains`, and the per-query `execute` transport.  Returns the
issued queries together with the accumulated listings, or `.error` when an
exception escapes the function. -/
def search_enterprise_google (gkey : Option String) (buildSvc : Except Unit Unit)
    (target_domains : List String) (exec : String → Except Unit GData)
    (term country_name : String) : Except Unit (List String × List Listing) :=
  if pyFalsy gkey then .ok ([], [])
  else
    match buildSvc with
    | .error e => .error e
    | .ok _ =>
      .ok ((chunkList target_domains).foldl (googleStep exec term country_name) ([], []))

/-! ### Orchestrator (`run_hybrid_search`) -/

/-- `criteria.get('countries', ['us'])[:3]`. -/
def targetCountries (c : Criteria) : List String :=
  (c.countries.getD ["us"]).take 3

/-- `criteria.get('specific_keywords', [])[:2]`. -/
def specificKeywords (c : Criteria) : List String :=
  (c.specific_keywords.getD []).take 2

/-- `criteria.get('broad_keywords', [])[:2]`. -/
def broadKeywords (c : Criteria) : List String :=
  (c.broad_keywords.getD []).take 2

/-- `c_code = COUNTRY_MAP.get(country.lower(), country.lower())`. -/
def countryCode (country : String) : String :=
  (List.lookup country.toLower COUNTRY_MAP).getD country.toLower

/-- The stream of listings produced by the nested
`for country / for term` loops, in iteration order: for each country the
enterprise adapter over the broad keywords first, then Adzuna over the
specific keywords (Adzuna is called with `c_code`, Google with the raw
country name).  The adapters are abstracted as the functions
`ent term country` and `adz term c_code`. -/
def candidateStream (ent adz : String → String → List Listing) (c : Criteria) :
    List Listing :=
  (targetCountries c).flatMap (fun country =>
    (broadKeywords c).flatMap (fun term => ent term country) ++
    (specificKeywords c).flatMap (fun term => adz term (countryCode country)))

/-- The `if j['URL'] not in seen_urls` filter: keep a listing when its URL
is not in the seen set, adding the URL to the set. -/
def dedupeByURL : List Listing → List (Option String) → List Listing
  | [], _ => []
  | j :: rest, seen =>
    if j.URL ∈ seen then dedupeByURL rest seen
    else j :: dedupeByURL rest (j.URL :: seen)

/-- `run_hybrid_search(criteria)`: the deduplicated accumulator over the
candidate stream, with an initially empty seen set. -/
def run_hybrid_search (ent adz : String → String → List Listing) (c : Criteria) :
    List Listing :=
  dedupeByURL (candidateStream ent adz c) []

/-- The number of adapter invocations `run_hybrid_search` makes:
one enterprise call per (country, broad term), one Adzuna call per
(country, specific term). -/
def numAdapterCalls (c : Criteria) : Nat :=
  (targetCountries c).length * ((broadKeywords c).length + (specificKeywords c).length)

/-! ### Planner and scorer (`parse_user_intent`, `ai_analyze_job`) -/

/-- `parse_user_intent`: the OpenAI call plus `json.loads`, with
`except: return None`. -/
def parse_user_intent (call : Except Unit Criteria) : Option Criteria :=
  match call with
  | .ok c => some c
  | .error _ => none

/-- `ai_analyze_job`: the OpenAI call plus `json.loads`; on any failure it
returns the literal dict `{"score": 0, "salary_est": "N/A", "reason": "Error"}`
(every key present). -/
def ai_analyze_job (call : Except Unit AnalysisJson) : AnalysisJson :=
  match call with
  | .ok a => a
  | .error _ => { score := some 0, salary_est := some "N/A", reason := some "Error" }

/-- One iteration of the scoring loop:
`j['Match %'] = a.get('score', 0)`,
`j['Salary Est.'] = a.get('salary_est', j['Salary'])`,
`j['Reason'] = a.get('reason', '')`. -/
def scoreListing (j : Listing) (call : Except Unit AnalysisJson) : ScoredRow :=
  let a := ai_analyze_job call
  { listing := j
    matchScore := a.score.getD 0
    salaryEst := match a.salary_est with
      | some s => some s
      | none => j.Salary
    reason := a.reason.getD "" }

/-- The scoring loop over `raw_jobs`, with the collaborator call for the
i-th listing given by `calls i`. -/
def scoreBatch (jobs : List Listing) (calls : Nat → Except Unit AnalysisJson) :
    List ScoredRow :=
  (List.range jobs.length).zip jobs |>.map (fun p => scoreListing p.2 (calls p.1))

/-! ### Ranking and selection -/

/-- Non-increasing order on scored rows (the order `sort_values(by='Match %',
ascending=False)` produces). -/
def scoreRel (a b : ScoredRow) : Prop := b.matchScore ≤ a.matchScore

instance : DecidableRel scoreRel := fun a b => inferInstanceAs (Decidable (_ ≤ _))

instance : IsTotal ScoredRow scoreRel := ⟨fun a b => le_total b.matchScore a.matchScore⟩

instance : IsTrans ScoredRow scoreRel :=
  ⟨fun _ _ _ h h' => le_trans h' h⟩

/-- `df[df['Match %'] > minScore].sort_values(by='Match %',
ascending=False).head(maxCount)`. -/
def select (scored : List ScoredRow) (minScore : Int) (maxCount : Nat) :
    List ScoredRow :=
  (List.insertionSort scoreRel (scored.filter (fun r => minScore < r.matchScore))).take maxCount

/-- The selection as hard-coded in the handler:
`df[df['Match %'] > 40]...head(50)`. -/
def pipelineSelect (analyzed : List ScoredRow) : List ScoredRow :=
  select analyzed 40 50

/-! ### Email and the submitted-form handler -/

/-- `send_jobs_email`: the SMTP session is the input; `return True` on
success, `return False` from the bare `except`. -/
def send_jobs_email (smtp : Except Unit Unit) : Bool :=
  match smtp with
  | .ok _ => true
  | .error _ => false

/-- What the `if submitted:` handler leaves visible: how many adapter calls
were made, the final `status` label (initially `"Initializing..."`, updated
only by the explicit `status.update` calls), the `st.success` message if
any, the rows rendered in expanders, and whether/with what result
`send_jobs_email` ran. -/
structure RunOutcome where
  adapterCalls : Nat
  statusLabel : String
  successMsg : Option String
  shown : List ScoredRow
  emailAttempted : Bool
  emailResult : Option Bool
deriving DecidableEq, Repr

/-- The `if submitted:` handler.  `planCall` is the planner collaborator
call; `ent`/`adz` the adapter behaviours; `analyze i` the scoring call for
the i-th raw job; `smtp` the mail transport.  Note: when `criteria` is
`None` there is no `else` branch — nothing runs and the status label stays
`"Initializing..."`.  `criteria['countries']` and
`criteria['broad_keywords']` are read by direct indexing in the
`status.write` lines, so a parsed plan missing either key raises an
uncaught `KeyError` (`.error ()`). -/
def submittedHandler (planCall : Except Unit Criteria)
    (ent adz : String → String → List Listing)
    (analyze : Nat → Except Unit AnalysisJson) (smtp : Except Unit Unit) :
    Except Unit RunOutcome :=
  match parse_user_intent planCall with
  | none =>
    .ok { adapterCalls := 0, statusLabel := "Initializing...", successMsg := none,
          shown := [], emailAttempted := false, emailResult := none }
  | some c =>
    match c.countries, c.broad_keywords with
    | some _, some _ =>
      let raw_jobs := run_hybrid_search ent adz c
      if raw_jobs.isEmpty then
        .ok { adapterCalls := numAdapterCalls c, statusLabel := "No Jobs Found",
              successMsg := none, shown := [], emailAttempted := false,
              emailResult := none }
      else
        let analyzed := scoreBatch raw_jobs analyze
        let df := pipelineSelect analyzed
        if df.isEmpty then
          .ok { adapterCalls := numAdapterCalls c, statusLabel := "No high matches",
                successMsg := none, shown := [], emailAttempted := false,
                emailResult := none }
        else
          .ok { adapterCalls := numAdapterCalls c, statusLabel := "✅ Done!",
                successMsg := some "Report Sent!", shown := df,
                emailAttempted := true, emailResult := some (send_jobs_email smtp) }
    | _, _ => .error ()

/-! ### Lemmas about URL deduplication -/

theorem mem_of_mem_dedupeByURL {l : List Listing} {seen : List (Option String)}
    {j : Listing} (h : j ∈ dedupeByURL l seen) : j ∈ l := by
  induction l generalizing seen with
  | nil => simpa [dedupeByURL] using h
  | cons j0 rest ih =>
    by_cases hm : j0.URL ∈ seen
    · simp only [dedupeByURL, if_pos hm] at h
      exact List.mem_cons_of_mem _ (ih h)
    · simp only [dedupeByURL, if_neg hm, List.mem_cons] at h
      rcases h with h | h
      · exact h ▸ List.mem_cons_self _ _
      · exact List.mem_cons_of_mem _ (ih h)

theorem URL_not_seen_of_mem_dedupeByURL {l : List Listing}
    {seen : List (Option String)} {j : Listing} (h : j ∈ dedupeByURL l seen) :
    j.URL ∉ seen := by
  induction l generalizing seen with
  | nil => simp [dedupeByURL] at h
  | cons j0 rest ih =>
    by_cases hm : j0.URL ∈ seen
    · simp only [dedupeByURL, if_pos hm] at h
      exact ih h
    · simp only [dedupeByURL, if_neg hm, List.mem_cons] at h
      rcases h with h | h
      · exact h ▸ hm
      · intro hs
        exact ih h (List.mem_cons_of_mem _ hs)

theorem nodup_dedupeByURL (l : List Listing) (seen : List (Option String)) :
    ((dedupeByURL l seen).map Listing.URL).Nodup := by
  induction l generalizing seen with
  | nil => simp [dedupeByURL]
  | cons j0 rest ih =>
    by_cases hm : j0.URL ∈ seen
    · simpa only [dedupeByURL, if_pos hm] using ih seen
    · simp only [dedupeByURL, if_neg hm, List.map_cons, List.nodup_cons]
      refine ⟨?_, ih (j0.URL :: seen)⟩
      intro hmem
      rcases List.mem_map.1 hmem with ⟨x, hx, hxu⟩
      exact URL_not_seen_of_mem_dedupeByURL hx (hxu ▸ List.mem_cons_self _ _)

theorem mem_URL_dedupeByURL_iff (l : List Listing) (seen : List (Option String))
    (u : Option String) (hu : u ∉ seen) :
    u ∈ l.map Listing.URL ↔ u ∈ (dedupeByURL l seen).map Listing.URL := by
  induction l generalizing seen with
  | nil => simp [dedupeByURL]
  | cons j0 rest ih =>
    by_cases hm : j0.URL ∈ seen
    · have hne : u ≠ j0.URL := fun h => hu (h ▸ hm)
      simp only [dedupeByURL, if_pos hm, List.map_cons, List.mem_cons]
      constructor
      · rintro (h | h)
        · exact absurd h hne
        · exact (ih seen hu).1 h
      · intro h
        exact Or.inr ((ih seen hu).2 h)
    · simp only [dedupeByURL, if_neg hm, List.map_cons, List.mem_cons]
      by_cases huj : u = j0.URL
      · simp [huj]
      · have hu' : u ∉ j0.URL :: seen := by
          intro h
          rcases List.mem_cons.1 h with h | h
          · exact huj h
          · exact hu h
        constructor
        · rintro (h | h)
          · exact absurd h huj
          · exact Or.inr ((ih (j0.URL :: seen) hu').1 h)
        · rintro (h | h)
          · exact absurd h huj
          · exact Or.inr ((ih (j0.URL :: seen) hu').2 h)

theorem find_first_of_mem_dedupeByURL {l : List Listing}
    {seen : List (Option String)} {j : Listing} (h : j ∈ dedupeByURL l seen) :
    l.find? (fun x => decide (x.URL = j.URL)) = some j := by
  induction l generalizing seen with
  | nil => simp [dedupeByURL] at h
  | cons j0 rest ih =>
    by_cases hm : j0.URL ∈ seen
    · simp only [dedupeByURL, if_pos hm] at h
      have hju : j.URL ∉ seen := URL_not_seen_of_mem_dedupeByURL h
      have hne : ¬ (decide (j0.URL = j.URL) = true) := by
        simp only [decide_eq_true_eq]
        intro he
        exact hju (he ▸ hm)
      have hstep : List.find? (fun x => decide (x.URL = j.URL)) (j0 :: rest) =
          List.find? (fun x => decide (x.URL = j.URL)) rest :=
        List.find?_cons_of_neg _ hne
      rw [hstep]
      exact ih h
    · simp only [dedupeByURL, if_neg hm, List.mem_cons] at h
      rcases h with h | h
      · subst h
        have hstep : List.find? (fun x => decide (x.URL = j.URL)) (j :: rest) =
            some j := List.find?_cons_of_pos _ (by simp)
        exact hstep
      · have hju : j.URL ∉ j0.URL :: seen := URL_not_seen_of_mem_dedupeByURL h
        have hne : ¬ (decide (j0.URL = j.URL) = true) := by
          simp only [decide_eq_true_eq]
          intro he
          exact hju (he ▸ List.mem_cons_self _ _)
        have hstep : List.find? (fun x => decide (x.URL = j.URL)) (j0 :: rest) =
            List.find? (fun x => decide (x.URL = j.URL)) rest :=
          List.find?_cons_of_neg _ hne
        rw [hstep]
        exact ih h

/-- Claim C1: for every input stream of Listings produced by the adapters
(in the orchestrator's fixed iteration order, duplicates allowed), the
output of `run_hybrid_search` contains each distinct URL exactly once
(the mapped URL list has no duplicates and covers exactly the URLs of the
stream), and the Listing retained for each URL is the first-seen one in
the stream, regardless of the other fields of later duplicates. -/
theorem c1_dedup_unique_first_seen (ent adz : String → String → List Listing)
    (c : Criteria) :
    ((run_hybrid_search ent adz c).map Listing.URL).Nodup ∧
    (∀ u, u ∈ (candidateStream ent adz c).map Listing.URL ↔
        u ∈ (run_hybrid_search ent adz c).map Listing.URL) ∧
    (∀ j ∈ run_hybrid_search ent adz c,
        (candidateStream ent adz c).find? (fun x => decide (x.URL = j.URL)) = some j) := by
  refine ⟨nodup_dedupeByURL _ _, ?_, ?_⟩
  · intro u
    exact mem_URL_dedupeByURL_iff _ [] u (by simp)
  · intro j hj
    exact find_first_of_mem_dedupeByURL hj

/-- Witness for C1 at a concrete run: two adapters, the Adzuna result
sharing a URL with an earlier enterprise result; the retained listing is
the enterprise one (first seen), found first in the stream. -/
theorem c1_witness :
    ((⟨some "Arch", none, none, none, none, some "https://jobs.example/1", some "Enterprise Direct"⟩ : Listing) ∈
      run_hybrid_search
        (fun _ _ => [⟨some "Arch", none, none, none, none, some "https://jobs.example/1", some "Enterprise Direct"⟩,
                     ⟨some "Eng", none, none, none, none, some "https://jobs.example/2", some "Enterprise Direct"⟩])
        (fun _ _ => [⟨some "Other", none, none, none, none, some "https://jobs.example/1", some "Adzuna"⟩])
        ⟨some ["k1"], some ["b1"], some ["usa"]⟩) ∧
    (candidateStream
        (fun _ _ => [⟨some "Arch", none, none, none, none, some "https://jobs.example/1", some "Enterprise Direct"⟩,
                     ⟨some "Eng", none, none, none, none, some "https://jobs.example/2", some "Enterprise Direct"⟩])
        (fun _ _ => [⟨some "Other", none, none, none, none, some "https://jobs.example/1", some "Adzuna"⟩])
        ⟨some ["k1"], some ["b1"], some ["usa"]⟩).find?
      (fun x => decide (x.URL = (⟨some "Arch", none, none, none, none, some "https://jobs.example/1", some "Enterprise Direct"⟩ : Listing).URL)) =
      some ⟨some "Arch", none, none, none, none, some "https://jobs.example/1", some "Enterprise Direct"⟩ :=
  ⟨by decide,
   (c1_dedup_unique_first_seen _ _ _).2.2 _ (by decide)⟩

/-! ### Ranking and selection: claim C2 -/

/-- Claim C2: for every sequence of scored rows and every `minScore` and
`maxCount`, the output of `select` is sorted non-increasing by match
score, has length at most `maxCount`, and every element has match score
strictly greater than `minScore`; the pipeline instantiates this with
`minScore = 40` and `maxCount = 50` (`pipelineSelect`). -/
theorem c2_selection (scored : List ScoredRow) (minScore : Int) (maxCount : Nat) :
    List.Sorted scoreRel (select scored minScore maxCount) ∧
    (select scored minScore maxCount).length ≤ maxCount ∧
    (∀ r ∈ select scored minScore maxCount, minScore < r.matchScore) ∧
    (∀ analyzed, pipelineSelect analyzed = select analyzed 40 50) := by
  refine ⟨?_, ?_, ?_, fun _ => rfl⟩
  · exact List.Pairwise.sublist (List.take_sublist _ _)
      (List.sorted_insertionSort scoreRel _)
  · exact List.length_take_le _ _
  · intro r hr
    have h1 : r ∈ List.insertionSort scoreRel
        (scored.filter (fun r => minScore < r.matchScore)) :=
      (List.take_sublist _ _).subset hr
    have h2 : r ∈ scored.filter (fun r => minScore < r.matchScore) :=
      (List.mem_insertionSort scoreRel).1 h1
    exact of_decide_eq_true (List.mem_filter.1 h2).2

/-- Witness for C2: a concrete selection keeps the score-90 row, which
indeed exceeds the threshold 40. -/
theorem c2_witness :
    (⟨⟨some "T", none, none, none, none, some "u", none⟩, 90, none, "ok"⟩ : ScoredRow) ∈
      select [⟨⟨some "T", none, none, none, none, some "u", none⟩, 90, none, "ok"⟩,
              ⟨⟨some "T2", none, none, none, none, some "u2", none⟩, 10, none, "lo"⟩] 40 50 ∧
    (40 : Int) <
      (⟨⟨some "T", none, none, none, none, some "u", none⟩, 90, none, "ok"⟩ : ScoredRow).matchScore :=
  ⟨by decide,
   (c2_selection [⟨⟨some "T", none, none, none, none, some "u", none⟩, 90, none, "ok"⟩,
      ⟨⟨some "T2", none, none, none, none, some "u2", none⟩, 10, none, "lo"⟩] 40 50).2.2.1
     _ (by decide)⟩

/-! ### Adapter failure behaviour: claim C3 -/

/-- Claim C3, counterexample.  The claim says every error raised during an
adapter call is caught inside the adapter, which then returns an empty
sequence.  But (a) in `search_enterprise_google` the
`build("customsearch", ...)` call sits outside every `try`, so its failure
propagates to the caller, and (b) in `search_adzuna` a malformed item
after a well-formed one aborts the loop yet returns the non-empty partial
result, not an empty sequence. -/
theorem c3_counterexample :
    search_enterprise_google (some "key") (.error ()) ENTERPRISE_DOMAINS
        (fun _ => .error ()) "Identity Manager" "usa" = .error () ∧
    search_adzuna
        (.ok ⟨some [.ok ⟨some "Arch", none, none, none, none, some "u1"⟩, .error ()]⟩)
        "AD Architect" "us" =
      [adzunaListing "us" ⟨some "Arch", none, none, none, none, some "u1"⟩] ∧
    [adzunaListing "us" ⟨some "Arch", none, none, none, none, some "u1"⟩] ≠
      ([] : List Listing) := by
  refine ⟨rfl, rfl, by decide⟩

/-- Claim C3 as amended: `search_adzuna` never raises — a failing
transport call yields the empty list, and a malformed response aborts the
item loop keeping the listings accumulated so far; in
`search_enterprise_google` errors during a chunk's query/parse are caught
(once the service is built the adapter always returns normally), but a
failure of the service-construction call itself propagates to the
orchestrator. -/
theorem c3_amended (gkey : Option String) (hk : pyFalsy gkey = false)
    (sample : List String) (exec : String → Except Unit GData)
    (term country : String) :
    search_adzuna (.error ()) term country = [] ∧
    (∃ out, search_enterprise_google gkey (.ok ()) sample exec term country = .ok out) ∧
    search_enterprise_google gkey (.error ()) sample exec term country = .error () := by
  refine ⟨rfl, ?_, ?_⟩
  · exact ⟨(chunkList sample).foldl (googleStep exec term country) ([], []),
      by simp [search_enterprise_google, hk]⟩
  · simp [search_enterprise_google, hk]

/-- Witness for C3 (amended) at a configured key and concrete inputs. -/
theorem c3_witness :
    pyFalsy (some "AIza-test") = false ∧
    search_adzuna (.error ()) "AD Architect" "us" = [] := by
  have h := c3_amended (some "AIza-test") (by decide) ["pfizer.com/careers"]
    (fun _ => .error ()) "AD Architect" "us"
  exact ⟨by decide, h.1⟩

/-! ### Scoring degradation: claim C4 -/

/-- Claim C4, counterexample.  The claim says a failed scoring call yields
`salaryEstimate = listing's source salary if present else "N/A"`.  But
`ai_analyze_job`'s failure dict always carries `salary_est = "N/A"`, so
`a.get('salary_est', j['Salary'])` finds the key and ignores the listing's
salary: a listing with source salary `"150000"` still gets `"N/A"`. -/
theorem c4_counterexample :
    (scoreListing ⟨some "T", some "C", some "L", some "150000", some "D",
        some "https://jobs.example/9", some "Adzuna"⟩ (.error ())).salaryEst =
      some "N/A" ∧
    (⟨some "T", some "C", some "L", some "150000", some "D",
        some "https://jobs.example/9", some "Adzuna"⟩ : Listing).Salary =
      some "150000" ∧
    (some "N/A" : Option String) ≠ some "150000" := by
  refine ⟨rfl, rfl, by decide⟩

/-- Claim C4 as amended: when the scoring collaborator call fails, the row
gets `matchScore = 0`, `salaryEstimate = "N/A"` unconditionally (the
listing's source salary is ignored), and `rationale = "Error"`; the
failure never propagates, and the whole batch is still scored (output
length equals input length, every listing processed). -/
theorem c4_amended (j : Listing) (jobs : List Listing)
    (calls : Nat → Except Unit AnalysisJson) :
    scoreListing j (.error ()) =
      { listing := j, matchScore := 0, salaryEst := some "N/A", reason := "Error" } ∧
    (scoreBatch jobs calls).length = jobs.length := by
  constructor
  · rfl
  · simp [scoreBatch]

/-! ### Planner failure: claim C5 -/

/-- Claim C5, counterexample.  When the planner call fails the run indeed
makes zero adapter calls, but the user-visible part of the claim fails:
the `if criteria:` statement has no `else` branch, so no status update and
no message happen at all — the status label is still the initial
`"Initializing..."`, not a "could not determine search strategy"
outcome. -/
theorem c5_counterexample :
    submittedHandler (.error ()) (fun _ _ => []) (fun _ _ => [])
        (fun _ => .error ()) (.ok ()) =
      .ok { adapterCalls := 0, statusLabel := "Initializing...",
            successMsg := none, shown := [], emailAttempted := false,
            emailResult := none } ∧
    "Initializing..." ≠ "could not determine search strategy" := by
  refine ⟨rfl, by decide⟩

/-- Claim C5 as amended: if the planner collaborator call fails, the run
terminates before any adapter is invoked (zero adapter calls, no scoring,
no email), but silently: the status label keeps its initial
`"Initializing..."` value and no message is shown. -/
theorem c5_amended (ent adz : String → String → List Listing)
    (analyze : Nat → Except Unit AnalysisJson) (smtp : Except Unit Unit) :
    submittedHandler (.error ()) ent adz analyze smtp =
      .ok { adapterCalls := 0, statusLabel := "Initializing...",
            successMsg := none, shown := [], emailAttempted := false,
            emailResult := none } := rfl

/-! ### Plan-sequence defaults: claim C6 -/

/-- Claim C6, counterexample.  The claim says the orchestrator substitutes
a single default whenever the planner yields an empty sequence.  But
`criteria.get('countries', ['us'])` substitutes only when the key is
absent: an explicitly empty `countries` list (and empty keyword lists,
whose `.get` defaults are themselves `[]`) pass through empty, and the
search loop runs zero times even though the adapters would have returned
listings. -/
theorem c6_counterexample :
    targetCountries ⟨some [], some [], some []⟩ = [] ∧
    specificKeywords ⟨some [], some [], some []⟩ = [] ∧
    broadKeywords ⟨some [], some [], some []⟩ = [] ∧
    run_hybrid_search
        (fun _ _ => [⟨some "T", none, none, none, none, some "u", none⟩])
        (fun _ _ => [⟨some "T", none, none, none, none, some "u", none⟩])
        ⟨some [], some [], some []⟩ = [] := by
  refine ⟨rfl, rfl, rfl, rfl⟩

/-- Claim C6 as amended: the orchestrator substitutes the single default
`["us"]` for the country list only when the planner output lacks the
`countries` key entirely; a present-but-empty countries list is kept
empty, the keyword lists have `[]` as their fallback (no non-empty default
at all), and with an empty country list the search loop performs no
iterations and returns no listings. -/
theorem c6_amended (c : Criteria) (ent adz : String → String → List Listing) :
    (c.countries = none → targetCountries c = ["us"]) ∧
    (c.countries = some [] → targetCountries c = []) ∧
    (c.specific_keywords = none ∨ c.specific_keywords = some [] →
      specificKeywords c = []) ∧
    (c.broad_keywords = none ∨ c.broad_keywords = some [] →
      broadKeywords c = []) ∧
    (targetCountries c = [] → run_hybrid_search ent adz c = []) := by
  refine ⟨?_, ?_, ?_, ?_, ?_⟩
  · intro h
    simp [targetCountries, h]
  · intro h
    simp [targetCountries, h]
  · rintro (h | h) <;> simp [specificKeywords, h]
  · rintro (h | h) <;> simp [broadKeywords, h]
  · intro h
    simp [run_hybrid_search, candidateStream, h, dedupeByURL]

/-- Witness for C6: the default substitution at an absent `countries` key,
and the empty loop at an explicitly empty one. -/
theorem c6_witness :
    targetCountries ⟨some ["k"], some ["b"], none⟩ = ["us"] ∧
    run_hybrid_search (fun _ _ => []) (fun _ _ => [])
      ⟨some [], some [], some []⟩ = [] :=
  ⟨(c6_amended ⟨some ["k"], some ["b"], none⟩ (fun _ _ => []) (fun _ _ => [])).1 rfl,
   (c6_amended ⟨some [], some [], some []⟩ (fun _ _ => []) (fun _ _ => [])).2.2.2.2 rfl⟩

/-! ### Listing field population: claim C7 -/

/-- Claim C7, counterexample.  The claim says absent source values become
explicit placeholder strings, never `None`.  But `search_adzuna` stores
`item.get('title')`, `item.get('company', ...).get('display_name')` and
`item.get('redirect_url')` with no default: an Adzuna item missing those
keys yields a Listing whose `Title`, `Company` and `URL` are `None`. -/
theorem c7_counterexample :
    (adzunaListing "us" ⟨none, none, none, none, none, none⟩).Title = none ∧
    (adzunaListing "us" ⟨none, none, none, none, none, none⟩).Company = none ∧
    (adzunaListing "us" ⟨none, none, none, none, none, none⟩).URL = none := by
  refine ⟨rfl, rfl, rfl⟩

/-- Claim C7 as amended: the enterprise adapter populates every field of
every Listing it returns (an item with a missing key is dropped with the
rest of its chunk instead); the Adzuna adapter substitutes placeholders
only for `Salary` (`"0"`), `Description` (`""`) and the location display
name (rendered `"None"` inside the location string) — absent `title`,
`company` and `redirect_url` are carried through as `None`. -/
theorem c7_amended (g : GFields) (f : AdzunaFields) (country : String) :
    ((googleListing country g).Title.isSome ∧
     (googleListing country g).Company.isSome ∧
     (googleListing country g).Location.isSome ∧
     (googleListing country g).Salary.isSome ∧
     (googleListing country g).Description.isSome ∧
     (googleListing country g).URL.isSome ∧
     (googleListing country g).Source.isSome) ∧
    ((adzunaListing country f).Location = some
        (pyStr f.location_display_name ++ " (" ++ country.toUpper ++ ")") ∧
     (adzunaListing country f).Salary = some (f.salary_min.getD "0") ∧
     (adzunaListing country f).Description = some (f.description.getD "") ∧
     (adzunaListing country f).Source = some "Adzuna" ∧
     (adzunaListing country f).Title = f.title ∧
     (adzunaListing country f).Company = f.company_display_name ∧
     (adzunaListing country f).URL = f.redirect_url) := by
  exact ⟨⟨rfl, rfl, rfl, rfl, rfl, rfl, rfl⟩, ⟨rfl, rfl, rfl, rfl, rfl, rfl, rfl⟩⟩

/-! ### Domain chunking: claim C8 -/

theorem chunkListGo_flatten :
    ∀ (fuel : Nat) (l : List String), l.length ≤ fuel →
      (chunkListGo fuel l).flatten = l := by
  intro fuel
  induction fuel with
  | zero =>
    intro l h
    have : l = [] := List.eq_nil_of_length_eq_zero (Nat.le_zero.1 h)
    subst this
    rfl
  | succ n ih =>
    intro l h
    cases l with
    | nil => rfl
    | cons a as =>
      have hlen : ((a :: as).drop 5).length ≤ n := by
        simp only [List.length_drop, List.length_cons] at *
        omega
      show ((a :: as).take 5 :: chunkListGo n ((a :: as).drop 5)).flatten = a :: as
      rw [List.flatten_cons, ih _ hlen, List.take_append_drop]

theorem chunkListGo_mem :
    ∀ (fuel : Nat) (l : List String) (ch : List String), l.length ≤ fuel →
      ch ∈ chunkListGo fuel l → ch ≠ [] ∧ ch.length ≤ 5 := by
  intro fuel
  induction fuel with
  | zero =>
    intro l ch _ hm
    simp [chunkListGo] at hm
  | succ n ih =>
    intro l ch h hm
    cases l with
    | nil => simp [chunkListGo] at hm
    | cons a as =>
      have hm' : ch ∈ (a :: as).take 5 :: chunkListGo n ((a :: as).drop 5) := hm
      rcases List.mem_cons.1 hm' with hh | hh
      · subst hh
        constructor
        · simp [List.take]
        · exact List.length_take_le _ _
      · have hlen : ((a :: as).drop 5).length ≤ n := by
          simp only [List.length_drop, List.length_cons] at *
          omega
        exact ih _ _ hlen hh

theorem chunkListGo_length :
    ∀ (fuel : Nat) (l : List String), l.length ≤ fuel →
      (chunkListGo fuel l).length = (l.length + 4) / 5 := by
  intro fuel
  induction fuel with
  | zero =>
    intro l h
    have : l = [] := List.eq_nil_of_length_eq_zero (Nat.le_zero.1 h)
    subst this
    rfl
  | succ n ih =>
    intro l h
    cases l with
    | nil => rfl
    | cons a as =>
      have hlen : ((a :: as).drop 5).length ≤ n := by
        simp only [List.length_drop, List.length_cons] at *
        omega
      show ((a :: as).take 5 :: chunkListGo n ((a :: as).drop 5)).length =
        ((a :: as).length + 4) / 5
      rw [List.length_cons, ih _ hlen]
      simp only [List.length_drop, List.length_cons]
      omega

theorem chunkListGo_len_five :
    ∀ (fuel : Nat) (l : List String) (ch : List String), l.length ≤ fuel →
      l.length % 5 = 0 → ch ∈ chunkListGo fuel l → ch.length = 5 := by
  intro fuel
  induction fuel with
  | zero =>
    intro l ch _ _ hm
    simp [chunkListGo] at hm
  | succ n ih =>
    intro l ch h hmod hm
    cases l with
    | nil => simp [chunkListGo] at hm
    | cons a as =>
      have hm' : ch ∈ (a :: as).take 5 :: chunkListGo n ((a :: as).drop 5) := hm
      have hge : 5 ≤ (a :: as).length := by
        simp only [List.length_cons] at *
        omega
      rcases List.mem_cons.1 hm' with hh | hh
      · subst hh
        rw [List.length_take]
        omega
      · have hlen : ((a :: as).drop 5).length ≤ n := by
          simp only [List.length_drop, List.length_cons] at *
          omega
        have hmod' : ((a :: as).drop 5).length % 5 = 0 := by
          simp only [List.length_drop, List.length_cons] at *
          omega
        exact ih _ _ hlen hmod' hh

theorem googleFold_queries (exec : String → Except Unit GData)
    (term country : String) :
    ∀ (chunks : List (List String)) (acc : List String × List Listing),
      (chunks.foldl (googleStep exec term country) acc).1 =
        acc.1 ++ chunks.map (fun ch => mkQuery ch term country) := by
  intro chunks
  induction chunks with
  | nil => simp
  | cons ch rest ih =>
    intro acc
    simp only [List.foldl_cons, List.map_cons]
    rw [ih]
    cases hx : exec (mkQuery ch term country) <;>
      simp [googleStep, hx]

/-- Claim C8: the site-restricted adapter partitions its (sampled)
candidate domain list into chunks of the fixed constant 5 — the chunks
concatenate back to the list, each chunk is non-empty with at most 5
domains, and the sampled list of 15 (= `min(15, len(ENTERPRISE_DOMAINS))`)
domains yields exactly 3 chunks of exactly 5 — and it issues exactly one
query per chunk, each query being the single string combining the OR-ed
site restrictions of that chunk with the keyword and location terms
(`mkQuery`). -/
theorem c8_chunked_queries (sample : List String)
    (exec : String → Except Unit GData) (gkey : Option String)
    (hk : pyFalsy gkey = false) (term country : String) :
    (chunkList sample).flatten = sample ∧
    (∀ ch ∈ chunkList sample, ch ≠ [] ∧ ch.length ≤ 5) ∧
    (sample.length = min 15 ENTERPRISE_DOMAINS.length →
      (chunkList sample).length = 3 ∧ ∀ ch ∈ chunkList sample, ch.length = 5) ∧
    (search_enterprise_google gkey (.ok ()) sample exec term country).map Prod.fst =
      .ok ((chunkList sample).map (fun ch => mkQuery ch term country)) := by
  refine ⟨chunkListGo_flatten _ _ le_rfl, ?_, ?_, ?_⟩
  · intro ch hch
    exact chunkListGo_mem _ _ _ le_rfl hch
  · intro h15
    have hlen : sample.length = 15 := by
      have : min 15 ENTERPRISE_DOMAINS.length = 15 := by decide
      rw [this] at h15
      exact h15
    constructor
    · rw [chunkList, chunkListGo_length _ _ le_rfl, hlen]
    · intro ch hch
      exact chunkListGo_len_five _ _ _ le_rfl (by rw [hlen]) hch
  · have hq := googleFold_queries exec term country (chunkList sample) ([], [])
    simp only [search_enterprise_google, hk, Bool.false_eq_true, if_false,
      Except.map]
    rw [hq]
    rfl

/-- Witness for C8: the key `"AIza-test-key"` is configured (not falsy),
a 15-domain sample has the sampled length, and its chunking has exactly
3 chunks. -/
theorem c8_witness :
    pyFalsy (some "AIza-test-key") = false ∧
    (ENTERPRISE_DOMAINS.take 15).length = min 15 ENTERPRISE_DOMAINS.length ∧
    (chunkList (ENTERPRISE_DOMAINS.take 15)).length = 3 :=
  ⟨by decide, by decide,
   ((c8_chunked_queries (ENTERPRISE_DOMAINS.take 15) (fun _ => .error ())
       (some "AIza-test-key") (by decide) "Identity Manager" "usa").2.2.1
     (by decide)).1⟩

/-! ### Delivery failure: claim C9 -/

/-- Claim C9, counterexample.  A complete run in which the SMTP dispatch
fails (`send_jobs_email` returns `False`) still ends with the success
status `"✅ Done!"` and the message `"Report Sent!"` — the return value of
`send_jobs_email` is ignored and the failure is never reported, contrary
to the claim. -/
theorem c9_counterexample :
    send_jobs_email (.error ()) = false ∧
    submittedHandler (.ok ⟨some ["AD Architect"], some [], some ["usa"]⟩)
        (fun _ _ => [])
        (fun _ _ => [⟨some "T", some "C", some "L", some "100000", some "D",
            some "https://jobs.example/1", some "Adzuna"⟩])
        (fun _ => .ok ⟨some 90, some "100k", some "fit"⟩) (.error ()) =
      .ok { adapterCalls := 1, statusLabel := "✅ Done!",
            successMsg := some "Report Sent!",
            shown := [⟨⟨some "T", some "C", some "L", some "100000", some "D",
                some "https://jobs.example/1", some "Adzuna"⟩, 90, some "100k", "fit"⟩],
            emailAttempted := true, emailResult := some false } := by
  exact ⟨rfl, rfl⟩

/-- Claim C9 as amended: when a run reaches delivery, the computed result
set is still shown locally (the expanders render the selected rows, which
are non-empty), but the dispatch outcome is ignored: every user-visible
field of the outcome (status label, success message, shown rows, adapter
calls) is identical whether the SMTP transport fails or succeeds, and the
run always reports `"Report Sent!"`. -/
theorem c9_amended (planCall : Except Unit Criteria)
    (ent adz : String → String → List Listing)
    (analyze : Nat → Except Unit AnalysisJson) (smtp : Except Unit Unit) :
    (∀ out, submittedHandler planCall ent adz analyze smtp = .ok out →
      out.emailAttempted = true →
      out.successMsg = some "Report Sent!" ∧ out.statusLabel = "✅ Done!" ∧
        out.shown ≠ []) ∧
    (submittedHandler planCall ent adz analyze smtp).map
        (fun o => (o.adapterCalls, o.statusLabel, o.successMsg, o.shown,
          o.emailAttempted)) =
      (submittedHandler planCall ent adz analyze (.ok ())).map
        (fun o => (o.adapterCalls, o.statusLabel, o.successMsg, o.shown,
          o.emailAttempted)) := by
  constructor
  · intro out h hatt
    cases planCall with
    | error u =>
      injection h with h
      subst h
      simp at hatt
    | ok c =>
      obtain ⟨sk, bk, cc⟩ := c
      simp only [submittedHandler, parse_user_intent] at h
      cases cc with
      | none => cases bk <;> simp at h
      | some cs =>
        cases bk with
        | none => simp at h
        | some bs =>
          by_cases hre : (run_hybrid_search ent adz ⟨sk, some bs, some cs⟩).isEmpty
          · rw [if_pos hre] at h
            injection h with h
            subst h
            simp at hatt
          · rw [if_neg hre] at h
            by_cases hdf : (pipelineSelect
                (scoreBatch (run_hybrid_search ent adz ⟨sk, some bs, some cs⟩)
                  analyze)).isEmpty
            · rw [if_pos hdf] at h
              injection h with h
              subst h
              simp at hatt
            · rw [if_neg hdf] at h
              injection h with h
              subst h
              refine ⟨rfl, rfl, ?_⟩
              intro hnil
              have hnil2 : pipelineSelect
                  (scoreBatch (run_hybrid_search ent adz ⟨sk, some bs, some cs⟩)
                    analyze) = [] := hnil
              rw [hnil2] at hdf
              exact hdf rfl
  · cases planCall with
    | error u => rfl
    | ok c =>
      obtain ⟨sk, bk, cc⟩ := c
      simp only [submittedHandler, parse_user_intent]
      cases cc with
      | none => cases bk <;> rfl
      | some cs =>
        cases bk with
        | none => rfl
        | some bs =>
          by_cases hre : (run_hybrid_search ent adz ⟨sk, some bs, some cs⟩).isEmpty
          · rw [if_pos hre, if_pos hre]
          · rw [if_neg hre, if_neg hre]
            by_cases hdf : (pipelineSelect
                (scoreBatch (run_hybrid_search ent adz ⟨sk, some bs, some cs⟩)
                  analyze)).isEmpty
            · rw [if_pos hdf, if_pos hdf]
            · rw [if_neg hdf, if_neg hdf]
              rfl

/-- Witness for C9 (amended) at a concrete delivery-reaching run with a
failing SMTP transport. -/
theorem c9_witness :
    ({ adapterCalls := 1, statusLabel := "✅ Done!",
       successMsg := some "Report Sent!",
       shown := [⟨⟨some "T2", none, none, none, none,
          some "https://jobs.example/2", some "Adzuna"⟩, 77, none, ""⟩],
       emailAttempted := true, emailResult := some false } : RunOutcome).successMsg =
        some "Report Sent!" ∧
    ({ adapterCalls := 1, statusLabel := "✅ Done!",
       successMsg := some "Report Sent!",
       shown := [⟨⟨some "T2", none, none, none, none,
          some "https://jobs.example/2", some "Adzuna"⟩, 77, none, ""⟩],
       emailAttempted := true, emailResult := some false } : RunOutcome).statusLabel =
        "✅ Done!" ∧
    ({ adapterCalls := 1, statusLabel := "✅ Done!",
       successMsg := some "Report Sent!",
       shown := [⟨⟨some "T2", none, none, none, none,
          some "https://jobs.example/2", some "Adzuna"⟩, 77, none, ""⟩],
       emailAttempted := true, emailResult := some false } : RunOutcome).shown ≠ [] :=
  (c9_amended (.ok ⟨some ["k"], some [], some ["uk"]⟩) (fun _ _ => [])
      (fun _ _ => [⟨some "T2", none, none, none, none,
        some "https://jobs.example/2", some "Adzuna"⟩])
      (fun _ => .ok ⟨some 77, none, none⟩) (.error ())).1 _ (by rfl) (by rfl)

/-! ### Missing Google key: claim C10 -/

/-- Claim C10: with `GOOGLE_API_KEY` unset, the enterprise adapter returns
immediately with an empty listing sequence, having issued zero queries;
the orchestrator with such an empty enterprise adapter degrades to exactly
the deduplicated Adzuna-only stream. -/
theorem c10_no_key_degrades (buildSvc : Except Unit Unit) (sample : List String)
    (exec : String → Except Unit GData) (term country : String)
    (adz : String → String → List Listing) (c : Criteria) :
    search_enterprise_google none buildSvc sample exec term country = .ok ([], []) ∧
    run_hybrid_search (fun _ _ => []) adz c =
      dedupeByURL ((targetCountries c).flatMap (fun country =>
        (specificKeywords c).flatMap (fun t => adz t (countryCode country)))) [] := by
  constructor
  · rfl
  · have hnil : ∀ l : List String, (l.flatMap fun _ => ([] : List Listing)) = [] := by
      intro l
      simp
    simp [run_hybrid_search, candidateStream, hnil]

end JobBot
